import Mathlib

/-!
Verification of the restaurant data-scraper's aggregation, deduplication,
enrichment and export pipeline.  The Python source is embedded shallowly:
dataclasses become structures, mutating methods become functions returning
the updated value, Python truthiness of a field is made explicit, and the
HTTP layer is abstracted as an oracle supplying the responses the code
would have received (transport failures as `Except.error`).
-/

namespace RestaurantScraper

/-- Python truthiness of a string: non-empty. -/
def strTruthy (s : String) : Bool := s ≠ ""

/-- Python truthiness of the optional numeric rating: present and non-zero
(`None` and `0.0` are both falsy). -/
def ratingTruthy : Option ℚ → Bool
  | none => false
  | some x => x ≠ 0

/-- `Restaurant` dataclass from `restaurant_scraper/models.py`: 21 string
fields defaulting to `""` plus an optional numeric rating. -/
structure Restaurant where
  venue_name : String := ""
  website : String := ""
  phone_number : String := ""
  email_address : String := ""
  venue_address : String := ""
  city : String := ""
  state : String := ""
  zip_code : String := ""
  country : String := ""
  venue_owner : String := ""
  cuisine_type : String := ""
  rating : Option ℚ := none
  price_level : String := ""
  facebook : String := ""
  instagram : String := ""
  twitter : String := ""
  linkedin : String := ""
  tiktok : String := ""
  yelp_url : String := ""
  google_place_id : String := ""
  hours_of_operation : String := ""
  source : String := ""
  deriving DecidableEq, Repr, Inhabited

/-- One field's worth of `Restaurant.merge`: the loop body
`if other_val and not current_val: setattr(self, fld, other_val)`. -/
def mergeStr (cur other : String) : String :=
  if strTruthy other ∧ ¬ strTruthy cur then other else cur

/-- The same loop body at the `rating` field, whose Python truthiness is
`ratingTruthy`. -/
def mergeRating (cur other : Option ℚ) : Option ℚ :=
  if ratingTruthy other ∧ ¬ ratingTruthy cur then other else cur

/-- `Restaurant.merge` from `models.py`: iterate over every dataclass field
and adopt the other record's value exactly when it is truthy and the
current value is falsy.  The Python method mutates `self`; here it returns
the updated record. -/
def Restaurant.merge (self other : Restaurant) : Restaurant where
  venue_name := mergeStr self.venue_name other.venue_name
  website := mergeStr self.website other.website
  phone_number := mergeStr self.phone_number other.phone_number
  email_address := mergeStr self.email_address other.email_address
  venue_address := mergeStr self.venue_address other.venue_address
  city := mergeStr self.city other.city
  state := mergeStr self.state other.state
  zip_code := mergeStr self.zip_code other.zip_code
  country := mergeStr self.country other.country
  venue_owner := mergeStr self.venue_owner other.venue_owner
  cuisine_type := mergeStr self.cuisine_type other.cuisine_type
  rating := mergeRating self.rating other.rating
  price_level := mergeStr self.price_level other.price_level
  facebook := mergeStr self.facebook other.facebook
  instagram := mergeStr self.instagram other.instagram
  twitter := mergeStr self.twitter other.twitter
  linkedin := mergeStr self.linkedin other.linkedin
  tiktok := mergeStr self.tiktok other.tiktok
  yelp_url := mergeStr self.yelp_url other.yelp_url
  google_place_id := mergeStr self.google_place_id other.google_place_id
  hours_of_operation := mergeStr self.hours_of_operation other.hours_of_operation
  source := mergeStr self.source other.source

/-! ### Deduplication (`_deduplicate` in `cli.py`) -/

/-- Python `str.lower` on one character (ASCII range, which covers the
case-folding the pipeline relies on). -/
def pyToLowerChar (c : Char) : Char :=
  if 'A' ≤ c ∧ c ≤ 'Z' then Char.ofNat (c.toNat + 32) else c

/-- Python whitespace as used by `str.strip()`. -/
def isPyWhitespace (c : Char) : Bool :=
  c = ' ' ∨ c = '\t' ∨ c = '\n' ∨ c = '\r' ∨ c = '\x0b' ∨ c = '\x0c'

/-- Python `str.strip()`: drop leading and trailing whitespace. -/
def pyStrip (cs : List Char) : List Char :=
  ((cs.dropWhile isPyWhitespace).reverse.dropWhile isPyWhitespace).reverse

/-- The identity key: `r.venue_name.lower().strip()`. -/
def normKey (s : String) : String :=
  String.mk (pyStrip (s.data.map pyToLowerChar))

/-- Identity key of a record. -/
def keyOf (r : Restaurant) : String := normKey r.venue_name

/-- Membership test `key in seen` on the insertion-ordered dictionary,
modelled as an association list. -/
def hasKey (seen : List (String × Restaurant)) (k : String) : Bool :=
  seen.any (fun p => p.1 == k)

/-- `seen[key].merge(r)`: update the (unique) entry with key `k` in
place. -/
def updateEntry (k : String) (r : Restaurant) :
    List (String × Restaurant) → List (String × Restaurant)
  | [] => []
  | (k', v) :: rest =>
    if k' = k then (k', v.merge r) :: rest else (k', v) :: updateEntry k r rest

/-- The loop of `_deduplicate`: a Python `dict` preserves insertion order,
so it is modelled as an association list; a new key is appended at the
end, an existing key's record absorbs the newcomer via `merge`. -/
def dedupGo (seen : List (String × Restaurant)) :
    List Restaurant → List (String × Restaurant)
  | [] => seen
  | r :: rest =>
    if hasKey seen (keyOf r) then
      dedupGo (updateEntry (keyOf r) r seen) rest
    else
      dedupGo (seen ++ [(keyOf r, r)]) rest

/-- `_deduplicate` from `cli.py`: `list(seen.values())`. -/
def deduplicate (rs : List Restaurant) : List Restaurant :=
  (dedupGo [] rs).map Prod.snd

/-- All records of `rs` whose identity key is `k`, in input order. -/
def groupFor (rs : List Restaurant) (k : String) : List Restaurant :=
  rs.filter (fun r => keyOf r == k)

/-- First-seen record merged with every later record of its group, in
order. -/
def mergeFold (first : Restaurant) (laters : List Restaurant) : Restaurant :=
  laters.foldl Restaurant.merge first

/-- Merge a whole same-key group: head merged with the tail in order. -/
def mergeGroup : List Restaurant → Restaurant
  | [] => default
  | g :: gs => mergeFold g gs

/-- The distinct identity keys of `rs` not already in `ks`, in order of
first appearance. -/
def newKeys (ks : List String) : List Restaurant → List String
  | [] => []
  | r :: rest =>
    if keyOf r ∈ ks then newKeys ks rest
    else keyOf r :: newKeys (ks ++ [keyOf r]) rest

/-- Deduplication as the specification words it: one record per distinct
identity key in order of first appearance, each being the first-seen
record of that key gap-fill-merged with every later same-key record in
input order. -/
def dedupSpec (rs : List Restaurant) : List Restaurant :=
  (newKeys [] rs).map (fun k => mergeGroup (groupFor rs k))

/-! ### Google Places scraper (`scrapers/google_places.py`) -/

/-- `PRICE_MAP.get(p, "")` for an integer price level. -/
def priceStr (p : Int) : String :=
  if p = 0 then "Free"
  else if p = 1 then "$"
  else if p = 2 then "$$"
  else if p = 3 then "$$$"
  else if p = 4 then "$$$$"
  else ""

/-- `PRICE_MAP.get(place.get("price_level"), "")`. -/
def priceStrOpt : Option Int → String
  | Option.none => ""
  | Option.some p => priceStr p

/-- One entry of a search response's `results` array, with the keys
`_parse_basic` reads (absent JSON keys are `none`). -/
structure GPlace where
  name : Option String
  vicinity : Option String
  formatted_address : Option String
  rating : Option ℚ
  price_level : Option Int
  place_id : Option String
  deriving DecidableEq, Repr

/-- `GooglePlacesScraper._parse_basic`. -/
def parseBasic (p : GPlace) : Restaurant :=
  { venue_name := p.name.getD ""
    venue_address := p.vicinity.getD (p.formatted_address.getD "")
    rating := p.rating
    price_level := priceStrOpt p.price_level
    google_place_id := p.place_id.getD ""
    source := "google_places" }

/-- A Places search response: its `status`, `results` and optional
`next_page_token`. -/
structure GResponse where
  status : String
  results : List GPlace
  next_page_token : Option String
  deriving DecidableEq, Repr

/-- `status in ("OK", "ZERO_RESULTS")`. -/
def okStatus (s : String) : Bool := s == "OK" || s == "ZERO_RESULTS"

/-- A mock page with status OK, no results, and a continuation token. -/
def emptyTokenPage : GResponse :=
  { status := "OK", results := [], next_page_token := some "t" }

/-- A mock place with only a name. -/
def onePlace : GPlace :=
  { name := some "P", vicinity := Option.none, formatted_address := Option.none,
    rating := Option.none, price_level := Option.none, place_id := Option.none }

/-- A mock page with one result and a continuation token on every
request. -/
def oneResultTokenPage : GResponse :=
  { status := "OK", results := [onePlace], next_page_token := some "t" }

/-- The `while` loop of `_paginate_search`.  `fetch i` is the outcome of
the `i`-th HTTP request (`Except.error` = a `requests` exception, which
the code does not catch).  The loop has no termination guarantee (the
provider could keep sending a token with empty pages), so it is embedded
with explicit fuel: `none` means the loop is still running after `fuel`
iterations, `some` carries its final outcome. -/
def gGo (fetch : Nat → Except String GResponse) (maxResults : Nat) :
    Nat → Nat → List Restaurant → Option (Except String (List Restaurant))
  | 0, _, _ => Option.none
  | fuel + 1, i, acc =>
    if maxResults ≤ acc.length then some (.ok acc)
    else
      match fetch i with
      | .error e => some (.error e)
      | .ok resp =>
        if okStatus resp.status then
          match resp.next_page_token with
          | Option.none =>
            some (.ok (acc ++ (resp.results.map parseBasic).take (maxResults - acc.length)))
          | Option.some _ =>
            gGo fetch maxResults fuel (i + 1)
              (acc ++ (resp.results.map parseBasic).take (maxResults - acc.length))
        else some (.ok acc)

/-- The paginated search, starting from request 0 with no accumulated
records. -/
def gPaginate (fetch : Nat → Except String GResponse) (maxResults fuel : Nat) :
    Option (Except String (List Restaurant)) :=
  gGo fetch maxResults fuel 0 []

/-- The loop of `_paginate_search` finishes (with some fuel). -/
def gTerminates (fetch : Nat → Except String GResponse) (maxResults : Nat) : Prop :=
  ∃ n, (gPaginate fetch maxResults n).isSome

/-- The loop of `_paginate_search` finishes by propagating a `requests`
exception with message `msg` to its caller. -/
def gRaises (fetch : Nat → Except String GResponse) (maxResults : Nat)
    (msg : String) : Prop :=
  ∃ n, gPaginate fetch maxResults n = some (.error msg)

/-! ### Google Places details enrichment (`enrich_restaurant`) -/

/-- One entry of `address_components`. -/
structure AddrComp where
  long_name : String
  short_name : String
  types : List String
  deriving DecidableEq, Repr

/-- The `result` payload of a details response, restricted to the keys
`enrich_restaurant` reads.  `weekday_text = []` models both an absent
`opening_hours.weekday_text` and an empty list (the code only tests
truthiness). -/
structure PlaceDetails where
  formatted_phone_number : Option String
  website : Option String
  formatted_address : Option String
  price_level : Option Int
  rating : Option ℚ
  weekday_text : List String
  address_components : List AddrComp
  deriving DecidableEq, Repr

/-- A details response: `status == "OK"` with a `result` payload, or any
other status (which the code logs and ignores). -/
inductive DetailsResp where
  | ok (result : PlaceDetails)
  | notOk (status : String)

/-- Python `" | ".join(...)` (and any separator join). -/
def pyJoin (sep : String) : List String → String
  | [] => ""
  | [x] => x
  | x :: xs => x ++ sep ++ pyJoin sep xs

/-- The body of the `for comp in components` loop of
`_parse_address_components`: an `if/elif` chain on the `types` tags. -/
def applyComp (r : Restaurant) (c : AddrComp) : Restaurant :=
  if "locality" ∈ c.types then { r with city := c.long_name }
  else if "administrative_area_level_1" ∈ c.types then { r with state := c.short_name }
  else if "postal_code" ∈ c.types then { r with zip_code := c.long_name }
  else if "country" ∈ c.types then { r with country := c.long_name }
  else r

/-- `GooglePlacesScraper._parse_address_components`. -/
def parseAddressComponents (comps : List AddrComp) (r : Restaurant) : Restaurant :=
  comps.foldl applyComp r

/-- `GooglePlacesScraper.enrich_restaurant`, given the parsed details
response for the record's `place_id`: a no-op without a `place_id` or on a
non-`OK` status; otherwise each present response value is written into the
record (`result.get(key, current)` — note this overwrites, it does not
gap-fill). -/
def enrichRestaurant (r : Restaurant) (resp : DetailsResp) : Restaurant :=
  if r.google_place_id = "" then r
  else
    match resp with
    | .notOk _ => r
    | .ok result =>
      let r1 := { r with
        phone_number := result.formatted_phone_number.getD r.phone_number,
        website := result.website.getD r.website,
        venue_address := result.formatted_address.getD r.venue_address }
      let r2 :=
        match result.price_level with
        | Option.none => r1
        | Option.some p => { r1 with price_level := priceStr p }
      let r3 :=
        match result.rating with
        | Option.none => r2
        | Option.some q => { r2 with rating := some q }
      let r4 :=
        if result.weekday_text.isEmpty then r3
        else { r3 with hours_of_operation := pyJoin " | " result.weekday_text }
      parseAddressComponents result.address_components r4

/-! ### Yelp scraper search loop (`scrapers/yelp_scraper.py`) -/

/-- The `while` loop of `YelpScraper.search_restaurants`.  `fetch start`
is the fetched-and-parsed page at offset `start` (`Except.error` = a
caught `requests` exception).  Every continuing iteration appends at
least one record, so `maxResults + 1` fuel always suffices; errors and
empty pages both break the loop. -/
def yelpGo (fetch : Nat → Except String (List Restaurant)) (maxResults : Nat) :
    Nat → Nat → List Restaurant → List Restaurant
  | 0, _, acc => acc
  | fuel + 1, start, acc =>
    if maxResults ≤ acc.length then acc
    else
      match fetch start with
      | .error _ => acc
      | .ok results =>
        if results.isEmpty then acc
        else
          yelpGo fetch maxResults fuel (start + 10)
            (acc ++ results.take (maxResults - acc.length))

/-- `YelpScraper.search_restaurants` over a response oracle. -/
def yelpSearch (fetch : Nat → Except String (List Restaurant))
    (maxResults : Nat) : List Restaurant :=
  yelpGo fetch maxResults (maxResults + 1) 0 []

/-- Replace every transport failure of the oracle by an empty page. -/
def errToEmpty (fetch : Nat → Except String (List Restaurant)) :
    Nat → Except String (List Restaurant) :=
  fun k =>
    match fetch k with
    | .error _ => .ok []
    | .ok l => .ok l

/-! ### Web-search fetch helper (`scrapers/web_search.py`) -/

/-- `WebSearchScraper._fetch_url`: a transport failure or a non-200
status yields `None`, a 200 response yields its body. -/
def webFetchUrl (outcome : Except String (Nat × String)) : Option String :=
  match outcome with
  | .error _ => Option.none
  | .ok (status, text) => if status = 200 then some text else Option.none

/-! ### Website email extraction (`scrapers/website_scraper.py`) -/

/-- The character class `[a-zA-Z0-9._%+\-]` of `EMAIL_RE`'s local part. -/
def isLocalChar (c : Char) : Bool :=
  c.isAlpha || c.isDigit || c = '.' || c = '_' || c = '%' || c = '+' || c = '-'

/-- The character class `[a-zA-Z0-9.\-]` of `EMAIL_RE`'s domain part. -/
def isDomainChar (c : Char) : Bool :=
  c.isAlpha || c.isDigit || c = '.' || c = '-'

/-- `[a-zA-Z]`. -/
def isAlphaChar (c : Char) : Bool := c.isAlpha

/-- Whether `pat` is a prefix of `cs`. -/
def startsWithPat : List Char → List Char → Bool
  | [], _ => true
  | _ :: _, [] => false
  | p :: ps, c :: cs => p == c && startsWithPat ps cs

/-- Whether `pat` occurs as a contiguous substring of `cs` (Python's
`pat in cs`). -/
def containsPat (pat : List Char) : List Char → Bool
  | [] => startsWithPat pat []
  | c :: cs => startsWithPat pat (c :: cs) || containsPat pat cs

/-- Whether `pat` is a suffix of `cs` (Python `str.endswith`). -/
def endsWithPat (pat cs : List Char) : Bool :=
  startsWithPat pat.reverse cs.reverse

/-- Python `str.replace(pat, "")`: delete every non-overlapping
occurrence of `pat`, left to right.  The fuel is the list length, which
bounds the number of steps. -/
def removeAllGo (pat : List Char) : Nat → List Char → List Char
  | 0, cs => cs
  | _ + 1, [] => []
  | fuel + 1, c :: cs =>
    if startsWithPat pat (c :: cs) then
      removeAllGo pat fuel ((c :: cs).drop pat.length)
    else c :: removeAllGo pat fuel cs

/-- Python `cs.replace(pat, "")` for a non-empty pattern. -/
def removeAllPat (pat cs : List Char) : List Char :=
  removeAllGo pat cs.length cs

/-- The backtracking step of `EMAIL_RE`'s domain part
`[a-zA-Z0-9.\-]+\.[a-zA-Z]{2,}` applied to the maximal domain-character
run `D`: the regex engine consumes `k ≥ 1` characters of the `+`, then
needs a literal `.` at `D[k]` followed by at least two letters; greedy
backtracking means the largest such `k` wins. -/
def dotOk (D : List Char) (k : Nat) : Bool :=
  decide (1 ≤ k) && (D.get? k == some '.')
    && decide (2 ≤ ((D.drop (k + 1)).takeWhile isAlphaChar).length)

/-- The split index chosen by the backtracking engine, if any. -/
def findDotIdx (D : List Char) : Option Nat :=
  (List.range D.length).reverse.find? (dotOk D)

/-- One attempt of `EMAIL_RE` anchored at the head of `cs`: on success,
the matched characters and the remainder of the input after the match.
The local part never backtracks (a shorter local run is still followed by
a local character, not `@`), so the match is: maximal local run, `@`,
then the domain split above; the letters after the chosen dot are
consumed greedily. -/
def tryEmailMatch (cs : List Char) : Option (List Char × List Char) :=
  let loc := cs.takeWhile isLocalChar
  if loc.isEmpty then Option.none
  else
    match cs.drop loc.length with
    | '@' :: rest =>
      let D := rest.takeWhile isDomainChar
      match findDotIdx D with
      | Option.none => Option.none
      | Option.some k =>
        let dlen := k + 1 + ((D.drop (k + 1)).takeWhile isAlphaChar).length
        some (loc ++ '@' :: D.take dlen, cs.drop (loc.length + 1 + dlen))
    | _ => Option.none

/-- `EMAIL_RE.findall`: scan left to right, restarting after each match
and advancing one character after each failure.  Fuel is the input
length; every step consumes at least one character. -/
def emailScan : Nat → List Char → List String
  | 0, _ => []
  | _ + 1, [] => []
  | fuel + 1, c :: cs =>
    match tryEmailMatch (c :: cs) with
    | Option.some (m, rest) => String.mk m :: emailScan fuel rest
    | Option.none => emailScan fuel cs

/-- `EMAIL_RE.findall(s)`. -/
def emailFindall (s : String) : List String := emailScan s.data.length s.data

/-- The character list up to the first `'?'`: `s.split("?")[0]`. -/
def upToQuestion (cs : List Char) : List Char :=
  cs.takeWhile (fun c => c ≠ '?')

/-- The `mailto:` pass of `_extract_email`: walk the document's anchor
`href` values in order; for each one starting with `"mailto:"`, form
`href.replace("mailto:", "").split("?")[0].strip()` and return it if
`EMAIL_RE.match` accepts it, otherwise keep looking. -/
def firstMailto : List String → Option String
  | [] => Option.none
  | href :: rest =>
    if startsWithPat "mailto:".data href.data then
      let email := String.mk (pyStrip (upToQuestion
        (removeAllPat "mailto:".data href.data)))
      if (tryEmailMatch email.data).isSome then some email
      else firstMailto rest
    else firstMailto rest

/-- `urlparse(url).netloc`: the host part between `"://"` and the next
`/`, `?` or `#` (empty when the URL has no `"://"`). -/
def netlocOf : List Char → List Char
  | [] => []
  | c :: cs =>
    if startsWithPat "://".data (c :: cs) then
      ((c :: cs).drop 3).takeWhile (fun x => x ≠ '/' ∧ x ≠ '?' ∧ x ≠ '#')
    else netlocOf cs

/-- `urlparse(base_url).netloc.replace("www.", "")` — note: Python's
`replace` removes every occurrence of `"www."`, not only a leading
one. -/
def siteDomain (baseUrl : String) : String :=
  String.mk (removeAllPat "www.".data (netlocOf baseUrl.data))

/-- The site's domain as the specification words it: the host with only a
leading `"www."` stripped. -/
def siteDomainSpec (baseUrl : String) : String :=
  let n := netlocOf baseUrl.data
  String.mk (if startsWithPat "www.".data n then n.drop 4 else n)

/-- The image-filename filter of `_extract_email`:
`e.endswith((".png", ".jpg", ".gif", ".svg", ".webp"))`. -/
def isImageName (e : String) : Bool :=
  endsWithPat ".png".data e.data || endsWithPat ".jpg".data e.data
    || endsWithPat ".gif".data e.data || endsWithPat ".svg".data e.data
    || endsWithPat ".webp".data e.data

/-- `EMAIL_RE.findall(text + " " + html)` with the image-name false
positives discarded. -/
def filteredEmails (text html : String) : List String :=
  (emailFindall (text ++ " " ++ html)).filter (fun e => !(isImageName e))

/-- The candidates whose text contains the given domain string. -/
def domainPreferred (domain : String) (l : List String) : List String :=
  l.filter (fun e => containsPat domain.data e.data)

/-- `WebsiteScraper._extract_email`, with the document's anchor `href`
values supplied in order (the BeautifulSoup layer): a valid `mailto:`
target wins; otherwise the domain-preferred first regex candidate, then
the first remaining candidate, then `""`. -/
def extractEmail (anchors : List String) (text html baseUrl : String) : String :=
  match firstMailto anchors with
  | Option.some e => e
  | Option.none =>
    match domainPreferred (siteDomain baseUrl) (filteredEmails text html) with
    | e :: _ => e
    | [] =>
      match filteredEmails text html with
      | e :: _ => e
      | [] => ""

/-- Email extraction as the claim words it, differing from the code only
in the domain computation (leading-`"www."` strip instead of
remove-all). -/
def extractEmailSpec (anchors : List String) (text html baseUrl : String) : String :=
  match firstMailto anchors with
  | Option.some e => e
  | Option.none =>
    match domainPreferred (siteDomainSpec baseUrl) (filteredEmails text html) with
    | e :: _ => e
    | [] =>
      match filteredEmails text html with
      | e :: _ => e
      | [] => ""

/-! ### HubSpot bulk exporter (`exporters/hubspot_api.py`) -/

/-- One element of a HubSpot `errors` array: an optional `message` key and
the textual repr used by `str(err)` when the key is missing. -/
structure HSError where
  message : Option String
  asStr : String
  deriving DecidableEq, Repr

/-- `err.get("message", str(err))`. -/
def errMessage (e : HSError) : String := e.message.getD e.asStr

/-- The parts of a HubSpot batch-create HTTP response the code reads. -/
structure HSResponse where
  status : Nat
  results : List String
  errors : List HSError
  text : String
  deriving DecidableEq, Repr

/-- Outcome of one `session.post`: a response, or a transport-level
`requests.RequestException` with its text. -/
inductive BatchOutcome where
  | resp (r : HSResponse)
  | exc (msg : String)

/-- The running summary of `push_restaurants`, instrumented with the
number of provider requests issued and inter-batch sleeps performed. -/
structure PushSummary where
  created : Nat
  failed : Nat
  errors : List String
  requests : Nat
  sleeps : Nat
  deriving DecidableEq, Repr

/-- Python `text[:200]`. -/
def pyTake200 (t : String) : String := String.mk (t.data.take 200)

/-- The `result` dict built by `_create_batch`. -/
structure BatchResult where
  created : Nat
  failed : Nat
  errors : List String
  deriving DecidableEq, Repr

/-- `HubSpotExporter._create_batch`, given the outcome of its POST:
HTTP 201 counts the returned results as created; HTTP 207 counts results
as created and errors as failed with one message per error; any other
status or a transport exception fails the whole batch with a single
message. -/
def createBatch (batch : List Restaurant) (outcome : BatchOutcome) : BatchResult :=
  match outcome with
  | .resp r =>
    if r.status = 201 then
      { created := r.results.length, failed := 0, errors := [] }
    else if r.status = 207 then
      { created := r.results.length, failed := r.errors.length,
        errors := r.errors.map errMessage }
    else
      { created := 0, failed := batch.length,
        errors := ["HTTP " ++ toString r.status ++ ": " ++ pyTake200 r.text] }
  | .exc msg => { created := 0, failed := batch.length, errors := [msg] }

/-- The loop of `push_restaurants`: `for i in range(0, len(restaurants),
batch_size)`, sending `restaurants[i:i+batch_size]` each round and
sleeping between batches but not after the last.  `l` is the remaining
suffix `restaurants[i:]`; the fuel argument bounds the iteration count
(`rs.length` iterations suffice whenever `batch_size ≥ 1`; Python raises
`ValueError` on `batch_size = 0`, so the theorems assume `0 < bs`). -/
def pushGo (provider : Nat → BatchOutcome) (bs n : Nat) :
    Nat → Nat → List Restaurant → PushSummary → PushSummary
  | 0, _, _, acc => acc
  | _ + 1, _, [], acc => acc
  | fuel + 1, i, l, acc =>
    let b := createBatch (l.take bs) (provider i)
    pushGo provider bs n fuel (i + bs) (l.drop bs)
      { created := acc.created + b.created, failed := acc.failed + b.failed,
        errors := acc.errors ++ b.errors, requests := acc.requests + 1,
        sleeps := if i + bs < n then acc.sleeps + 1 else acc.sleeps }

/-- `HubSpotExporter.push_restaurants`, with the provider's responses
supplied as an oracle indexed by the loop counter `i`. -/
def pushRestaurants (provider : Nat → BatchOutcome) (rs : List Restaurant)
    (bs : Nat) : PushSummary :=
  pushGo provider bs rs.length rs.length 0 rs
    { created := 0, failed := 0, errors := [], requests := 0, sleeps := 0 }

/-! ### CSV exporter (`exporters/csv_exporter.py`) -/

/-- A Python value appearing in a CSV cell before `csv.writer`
stringifies it: a string, the numeric rating, or `None`. -/
inductive PyVal where
  | s (v : String)
  | num (q : ℚ)
  | none
  deriving DecidableEq, Repr

/-- The `rating` entry of `Restaurant.to_dict()`. -/
def ratingVal : Option ℚ → PyVal
  | Option.none => PyVal.none
  | Option.some q => PyVal.num q

/-- `Restaurant.to_dict()` (dataclasses `asdict`): every field, in
declaration order. -/
def toDict (r : Restaurant) : List (String × PyVal) :=
  [("venue_name", .s r.venue_name), ("website", .s r.website),
    ("phone_number", .s r.phone_number), ("email_address", .s r.email_address),
    ("venue_address", .s r.venue_address), ("city", .s r.city),
    ("state", .s r.state), ("zip_code", .s r.zip_code),
    ("country", .s r.country), ("venue_owner", .s r.venue_owner),
    ("cuisine_type", .s r.cuisine_type), ("rating", ratingVal r.rating),
    ("price_level", .s r.price_level), ("facebook", .s r.facebook),
    ("instagram", .s r.instagram), ("twitter", .s r.twitter),
    ("linkedin", .s r.linkedin), ("tiktok", .s r.tiktok),
    ("yelp_url", .s r.yelp_url), ("google_place_id", .s r.google_place_id),
    ("hours_of_operation", .s r.hours_of_operation), ("source", .s r.source)]

/-- `CSV_COLUMNS`: the fixed 20-column order. -/
def CSV_COLUMNS : List String :=
  ["venue_name", "website", "phone_number", "email_address", "venue_address",
    "city", "state", "zip_code", "country", "venue_owner", "cuisine_type",
    "rating", "price_level", "facebook", "instagram", "twitter", "linkedin",
    "tiktok", "yelp_url", "hours_of_operation"]

/-- `HUBSPOT_HEADER_MAP` as an association list (every CSV column has an
entry, so the lookup never falls back). -/
def HUBSPOT_HEADER_MAP : List (String × String) :=
  [("venue_name", "Company name"), ("website", "Company domain name"),
    ("phone_number", "Phone number"), ("email_address", "Email"),
    ("venue_address", "Street address"), ("city", "City"),
    ("state", "State/Region"), ("zip_code", "Postal code"),
    ("country", "Country/Region"), ("venue_owner", "Owner name"),
    ("cuisine_type", "Industry"), ("rating", "Rating"),
    ("price_level", "Price level"), ("facebook", "Facebook page"),
    ("instagram", "Instagram"), ("twitter", "Twitter handle"),
    ("linkedin", "LinkedIn page"), ("tiktok", "TikTok"),
    ("yelp_url", "Yelp URL"), ("hours_of_operation", "Hours of operation")]

/-- `"" if v is None else v`, applied to every cell of a record row. -/
def cell (v : PyVal) : PyVal :=
  match v with
  | .none => .s ""
  | x => x

/-- One record's CSV row: `[data.get(col, "") for col in CSV_COLUMNS]`
followed by the `None → ""` conversion. -/
def rowFor (r : Restaurant) : List PyVal :=
  CSV_COLUMNS.map (fun c => cell (((toDict r).lookup c).getD (.s "")))

/-- The header row of `export_to_csv`. -/
def csvHeaders (hubspot_format : Bool) : List String :=
  if hubspot_format then
    CSV_COLUMNS.map (fun c => (HUBSPOT_HEADER_MAP.lookup c).getD "")
  else CSV_COLUMNS

/-- `export_to_csv` as the sequence of rows handed to `csv.writer`: the
header row, then one row per record in order. -/
def exportToCsv (rs : List Restaurant) (hubspot_format : Bool) :
    List (List PyVal) :=
  (csvHeaders hubspot_format).map PyVal.s :: rs.map rowFor

theorem mergeStr_eq (cur other : String) :
    mergeStr cur other =
      if strTruthy other ∧ ¬ strTruthy cur then other else cur := rfl

theorem mergeStr_keep (cur other : String) (h : strTruthy cur) :
    mergeStr cur other = cur := by
  simp [mergeStr, h]

theorem mergeRating_keep (cur other : Option ℚ) (h : ratingTruthy cur) :
    mergeRating cur other = cur := by
  simp [mergeRating, h]

theorem mergeStr_self (s : String) : mergeStr s s = s := by
  simp [mergeStr]

theorem mergeRating_self (r : Option ℚ) : mergeRating r r = r := by
  simp [mergeRating]

/-- **C1.** `existing.merge(incoming)` sets each field to the incoming
value exactly when the incoming value is non-empty (truthy) and the
existing value is empty (falsy), and keeps the existing value otherwise;
in particular every field on which the existing record is non-empty is
unchanged by the merge.  "Empty" is Python falsiness: `""` for the string
fields and `None`-or-`0` for `rating`. -/
theorem merge_gap_fill (e i : Restaurant) :
    ((e.merge i).venue_name = mergeStr e.venue_name i.venue_name
      ∧ (e.merge i).website = mergeStr e.website i.website
      ∧ (e.merge i).phone_number = mergeStr e.phone_number i.phone_number
      ∧ (e.merge i).email_address = mergeStr e.email_address i.email_address
      ∧ (e.merge i).venue_address = mergeStr e.venue_address i.venue_address
      ∧ (e.merge i).city = mergeStr e.city i.city
      ∧ (e.merge i).state = mergeStr e.state i.state
      ∧ (e.merge i).zip_code = mergeStr e.zip_code i.zip_code
      ∧ (e.merge i).country = mergeStr e.country i.country
      ∧ (e.merge i).venue_owner = mergeStr e.venue_owner i.venue_owner
      ∧ (e.merge i).cuisine_type = mergeStr e.cuisine_type i.cuisine_type
      ∧ (e.merge i).rating = mergeRating e.rating i.rating
      ∧ (e.merge i).price_level = mergeStr e.price_level i.price_level
      ∧ (e.merge i).facebook = mergeStr e.facebook i.facebook
      ∧ (e.merge i).instagram = mergeStr e.instagram i.instagram
      ∧ (e.merge i).twitter = mergeStr e.twitter i.twitter
      ∧ (e.merge i).linkedin = mergeStr e.linkedin i.linkedin
      ∧ (e.merge i).tiktok = mergeStr e.tiktok i.tiktok
      ∧ (e.merge i).yelp_url = mergeStr e.yelp_url i.yelp_url
      ∧ (e.merge i).google_place_id = mergeStr e.google_place_id i.google_place_id
      ∧ (e.merge i).hours_of_operation = mergeStr e.hours_of_operation i.hours_of_operation
      ∧ (e.merge i).source = mergeStr e.source i.source)
    ∧ ((strTruthy e.venue_name → (e.merge i).venue_name = e.venue_name)
      ∧ (strTruthy e.website → (e.merge i).website = e.website)
      ∧ (strTruthy e.phone_number → (e.merge i).phone_number = e.phone_number)
      ∧ (strTruthy e.email_address → (e.merge i).email_address = e.email_address)
      ∧ (strTruthy e.venue_address → (e.merge i).venue_address = e.venue_address)
      ∧ (strTruthy e.city → (e.merge i).city = e.city)
      ∧ (strTruthy e.state → (e.merge i).state = e.state)
      ∧ (strTruthy e.zip_code → (e.merge i).zip_code = e.zip_code)
      ∧ (strTruthy e.country → (e.merge i).country = e.country)
      ∧ (strTruthy e.venue_owner → (e.merge i).venue_owner = e.venue_owner)
      ∧ (strTruthy e.cuisine_type → (e.merge i).cuisine_type = e.cuisine_type)
      ∧ (ratingTruthy e.rating → (e.merge i).rating = e.rating)
      ∧ (strTruthy e.price_level → (e.merge i).price_level = e.price_level)
      ∧ (strTruthy e.facebook → (e.merge i).facebook = e.facebook)
      ∧ (strTruthy e.instagram → (e.merge i).instagram = e.instagram)
      ∧ (strTruthy e.twitter → (e.merge i).twitter = e.twitter)
      ∧ (strTruthy e.linkedin → (e.merge i).linkedin = e.linkedin)
      ∧ (strTruthy e.tiktok → (e.merge i).tiktok = e.tiktok)
      ∧ (strTruthy e.yelp_url → (e.merge i).yelp_url = e.yelp_url)
      ∧ (strTruthy e.google_place_id → (e.merge i).google_place_id = e.google_place_id)
      ∧ (strTruthy e.hours_of_operation → (e.merge i).hours_of_operation = e.hours_of_operation)
      ∧ (strTruthy e.source → (e.merge i).source = e.source)) := by
  constructor
  · exact ⟨rfl, rfl, rfl, rfl, rfl, rfl, rfl, rfl, rfl, rfl, rfl, rfl, rfl,
      rfl, rfl, rfl, rfl, rfl, rfl, rfl, rfl, rfl⟩
  · exact ⟨fun h => mergeStr_keep _ _ h, fun h => mergeStr_keep _ _ h,
      fun h => mergeStr_keep _ _ h, fun h => mergeStr_keep _ _ h,
      fun h => mergeStr_keep _ _ h, fun h => mergeStr_keep _ _ h,
      fun h => mergeStr_keep _ _ h, fun h => mergeStr_keep _ _ h,
      fun h => mergeStr_keep _ _ h, fun h => mergeStr_keep _ _ h,
      fun h => mergeStr_keep _ _ h, fun h => mergeRating_keep _ _ h,
      fun h => mergeStr_keep _ _ h, fun h => mergeStr_keep _ _ h,
      fun h => mergeStr_keep _ _ h, fun h => mergeStr_keep _ _ h,
      fun h => mergeStr_keep _ _ h, fun h => mergeStr_keep _ _ h,
      fun h => mergeStr_keep _ _ h, fun h => mergeStr_keep _ _ h,
      fun h => mergeStr_keep _ _ h, fun h => mergeStr_keep _ _ h⟩

/-- Concrete instantiation of `merge_gap_fill`: an existing record with a
phone number keeps it even though the incoming record carries a different
one. -/
theorem merge_gap_fill_witness :
    (({ venue_name := "Cafe A", phone_number := "111" : Restaurant }.merge
        { venue_name := "Cafe A", phone_number := "222", website := "w.com" }).phone_number
      = "111") :=
  (merge_gap_fill { venue_name := "Cafe A", phone_number := "111" }
      { venue_name := "Cafe A", phone_number := "222", website := "w.com" }).2.2.2.1
    (by decide)

/-- **C8.** Merge is idempotent: `r.merge(r)` leaves every field of `r`
unchanged (and so does merging with any record equal to `r`). -/
theorem merge_idempotent (r : Restaurant) : r.merge r = r := by
  cases r
  simp only [Restaurant.merge, mergeStr_self, mergeRating_self]

/-! ### Deduplication lemmas and C2 -/

theorem hasKey_iff (seen : List (String × Restaurant)) (k : String) :
    hasKey seen k = true ↔ k ∈ seen.map Prod.fst := by
  unfold hasKey
  rw [List.any_eq_true]
  constructor
  · rintro ⟨p, hp, he⟩
    exact List.mem_map.mpr ⟨p, hp, beq_iff_eq.mp he⟩
  · intro h
    rcases List.mem_map.mp h with ⟨p, hp, he⟩
    exact ⟨p, hp, beq_iff_eq.mpr he⟩

theorem keys_updateEntry (k : String) (r : Restaurant) :
    ∀ seen : List (String × Restaurant),
      (updateEntry k r seen).map Prod.fst = seen.map Prod.fst := by
  intro seen
  induction seen with
  | nil => rfl
  | cons p rest ih =>
    obtain ⟨k', v⟩ := p
    by_cases h : k' = k <;> simp [updateEntry, h, ih]

theorem newKeys_not_mem {x : String} :
    ∀ (l : List Restaurant) (ks : List String), x ∈ newKeys ks l → x ∉ ks := by
  intro l
  induction l with
  | nil => intro ks h; simp [newKeys] at h
  | cons r rest ih =>
    intro ks h
    by_cases hk : keyOf r ∈ ks
    · exact ih ks (by simpa [newKeys, hk] using h)
    · rcases (by simpa [newKeys, hk] using h : x = keyOf r ∨ x ∈ newKeys (ks ++ [keyOf r]) rest) with
        h1 | h2
      · simpa [h1] using hk
      · intro hx
        exact ih (ks ++ [keyOf r]) h2 (by simp [hx])

theorem groupFor_cons_eq (r : Restaurant) (rest : List Restaurant) (k : String)
    (h : keyOf r = k) : groupFor (r :: rest) k = r :: groupFor rest k := by
  simp [groupFor, List.filter_cons, h]

theorem groupFor_cons_ne (r : Restaurant) (rest : List Restaurant) (k : String)
    (h : keyOf r ≠ k) : groupFor (r :: rest) k = groupFor rest k := by
  simp [groupFor, List.filter_cons, h]

theorem map_updateEntry (r : Restaurant) (rest : List Restaurant) :
    ∀ seen : List (String × Restaurant), (seen.map Prod.fst).Nodup →
      (updateEntry (keyOf r) r seen).map
          (fun p => (p.1, mergeFold p.2 (groupFor rest p.1)))
        = seen.map (fun p => (p.1, mergeFold p.2 (groupFor (r :: rest) p.1))) := by
  intro seen
  induction seen with
  | nil => intro _; rfl
  | cons p s ih =>
    intro hnd
    obtain ⟨k', v⟩ := p
    by_cases h : k' = keyOf r
    · subst h
      rw [show updateEntry (keyOf r) r ((keyOf r, v) :: s)
            = (keyOf r, v.merge r) :: s from by simp [updateEntry]]
      simp only [List.map_cons]
      congr 1
      · rw [groupFor_cons_eq r rest _ rfl]
        rfl
      · have hnd2 := hnd
        simp only [List.map_cons, List.nodup_cons] at hnd2
        have hout : keyOf r ∉ s.map Prod.fst := hnd2.1
        apply List.map_congr_left
        intro q hq
        have hq1 : q.1 ≠ keyOf r := by
          intro he
          exact hout (he ▸ List.mem_map_of_mem Prod.fst hq)
        rw [groupFor_cons_ne r rest q.1 (fun he => hq1 he.symm)]
    · have hnd' : (s.map Prod.fst).Nodup := (List.nodup_cons.mp (by simpa using hnd)).2
      simp only [updateEntry, if_neg h, List.map_cons, ih hnd']
      rw [groupFor_cons_ne r rest k' (fun he => h he.symm)]

theorem dedupGo_spec (rs : List Restaurant) :
    ∀ seen : List (String × Restaurant), (seen.map Prod.fst).Nodup →
      dedupGo seen rs =
        seen.map (fun p => (p.1, mergeFold p.2 (groupFor rs p.1)))
          ++ (newKeys (seen.map Prod.fst) rs).map
              (fun k => (k, mergeGroup (groupFor rs k))) := by
  induction rs with
  | nil =>
    intro seen _
    simp [dedupGo, newKeys, groupFor, mergeFold]
  | cons r rest ih =>
    intro seen hnd
    by_cases hk : keyOf r ∈ seen.map Prod.fst
    · have hhas : hasKey seen (keyOf r) = true := (hasKey_iff seen (keyOf r)).mpr hk
      have hnd' : ((updateEntry (keyOf r) r seen).map Prod.fst).Nodup := by
        rw [keys_updateEntry]; exact hnd
      rw [show dedupGo seen (r :: rest)
            = dedupGo (updateEntry (keyOf r) r seen) rest by
          simp [dedupGo, hhas]]
      rw [ih _ hnd', keys_updateEntry, map_updateEntry r rest seen hnd]
      congr 1
      rw [show newKeys (seen.map Prod.fst) (r :: rest)
            = newKeys (seen.map Prod.fst) rest by simp [newKeys, hk]]
      apply List.map_congr_left
      intro k hkmem
      have hne : keyOf r ≠ k := by
        intro he
        exact newKeys_not_mem rest (seen.map Prod.fst) hkmem (he ▸ hk)
      rw [groupFor_cons_ne r rest k hne]
    · have hhas : hasKey seen (keyOf r) = false := by
        cases h : hasKey seen (keyOf r) with
        | false => rfl
        | true => exact absurd ((hasKey_iff seen (keyOf r)).mp h) hk
      have hnd' : ((seen ++ [(keyOf r, r)]).map Prod.fst).Nodup := by
        simp only [List.map_append, List.map_cons, List.map_nil]
        rw [List.nodup_append]
        exact ⟨hnd, List.nodup_singleton _, by
          intro x hx hx'
          simp at hx'
          exact hk (hx' ▸ hx)⟩
      rw [show dedupGo seen (r :: rest)
            = dedupGo (seen ++ [(keyOf r, r)]) rest by
          simp [dedupGo, hhas]]
      rw [ih _ hnd']
      rw [show newKeys (seen.map Prod.fst) (r :: rest)
            = keyOf r :: newKeys (seen.map Prod.fst ++ [keyOf r]) rest by
          simp [newKeys, hk]]
      simp only [List.map_append, List.map_cons, List.map_nil, List.append_assoc,
        List.singleton_append]
      congr 1
      · apply List.map_congr_left
        intro q hq
        have : q.1 ≠ keyOf r := by
          intro he
          exact hk (he ▸ List.mem_map_of_mem Prod.fst hq)
        rw [groupFor_cons_ne r rest q.1 (fun he => this he.symm)]
      · congr 1
        · rw [groupFor_cons_eq r rest (keyOf r) rfl]
          simp [mergeGroup]
        · apply List.map_congr_left
          intro k hkmem
          have hne : keyOf r ≠ k := by
            intro he
            have := newKeys_not_mem rest (seen.map Prod.fst ++ [keyOf r]) hkmem
            exact this (by simp [he])
          rw [groupFor_cons_ne r rest k hne]

/-- **C2.** `_deduplicate` returns exactly one record per distinct
identity key (lower-cased, whitespace-trimmed venue name), in order of
first appearance; each output record is the first-seen record of its key
gap-fill-merged with every later same-key record in input order.  In
particular the three-adapter scenario `[Cafe A]`, `[cafe a + phone]`,
`[Cafe B]` collapses to "Cafe A" with the phone filled and "Cafe B"
unchanged. -/
theorem deduplicate_eq_spec :
    (∀ rs : List Restaurant, deduplicate rs = dedupSpec rs)
    ∧ deduplicate
        [{ venue_name := "Cafe A" }, { venue_name := "cafe a", phone_number := "555-1234" },
          { venue_name := "Cafe B" }]
      = [{ venue_name := "Cafe A", phone_number := "555-1234" }, { venue_name := "Cafe B" }] := by
  constructor
  · intro rs
    unfold deduplicate dedupSpec
    rw [dedupGo_spec rs [] (by simp)]
    simp [List.map_map, Function.comp]
  · decide

/-! ### HubSpot exporter: C7 and C10 -/

/-- **C7.** Per-batch accounting of `_create_batch`/`push_restaurants`:
HTTP 201 adds the returned result count to `created`; HTTP 207 adds the
result count to `created` and the error count to `failed` with exactly one
message per returned error; any other status or a transport exception adds
the full batch size to `failed` with exactly one message.  In particular
HTTP 207 with 7 results and 3 errors on a 10-record batch yields
`created = 7`, `failed = 3` and exactly 3 error messages. -/
theorem createBatch_accounting :
    (∀ (batch : List Restaurant) (r : HSResponse), r.status = 201 →
        createBatch batch (.resp r)
          = { created := r.results.length, failed := 0, errors := [] })
    ∧ (∀ (batch : List Restaurant) (r : HSResponse), r.status = 207 →
        createBatch batch (.resp r)
          = { created := r.results.length, failed := r.errors.length,
              errors := r.errors.map errMessage }
        ∧ (r.errors.map errMessage).length = r.errors.length)
    ∧ (∀ (batch : List Restaurant) (r : HSResponse),
        r.status ≠ 201 → r.status ≠ 207 →
        createBatch batch (.resp r)
          = { created := 0, failed := batch.length,
              errors := ["HTTP " ++ toString r.status ++ ": " ++ pyTake200 r.text] })
    ∧ (∀ (batch : List Restaurant) (msg : String),
        createBatch batch (.exc msg)
          = { created := 0, failed := batch.length, errors := [msg] })
    ∧ pushRestaurants
        (fun _ =>
          .resp { status := 207
                  results := ["1", "2", "3", "4", "5", "6", "7"]
                  errors := [{ message := some "err one", asStr := "e1" },
                    { message := some "err two", asStr := "e2" },
                    { message := Option.none, asStr := "err three" }]
                  text := "" })
        (List.replicate 10 { venue_name := "R" }) 10
      = { created := 7, failed := 3,
          errors := ["err one", "err two", "err three"], requests := 1,
          sleeps := 0 } := by
  refine ⟨?_, ?_, ?_, ?_, ?_⟩
  · intro batch r h
    simp [createBatch, h]
  · intro batch r h
    exact ⟨by simp [createBatch, h], by simp⟩
  · intro batch r h1 h2
    simp [createBatch, h1, h2]
  · intro batch msg
    rfl
  · rfl

/-- Concrete instantiation of `createBatch_accounting` at each response
shape. -/
theorem createBatch_accounting_witness :
    createBatch [{ venue_name := "A" }]
        (.resp { status := 201, results := ["x"], errors := [], text := "" })
      = { created := (["x"] : List String).length, failed := 0, errors := [] }
    ∧ (createBatch [{ venue_name := "A" }]
        (.resp { status := 207, results := [], errors := [{ message := some "m", asStr := "s" }], text := "" })
      = { created := ([] : List String).length,
          failed := [({ message := some "m", asStr := "s" } : HSError)].length,
          errors := [({ message := some "m", asStr := "s" } : HSError)].map errMessage }
      ∧ ([({ message := some "m", asStr := "s" } : HSError)].map errMessage).length
          = [({ message := some "m", asStr := "s" } : HSError)].length)
    ∧ createBatch [{ venue_name := "A" }]
        (.resp { status := 500, results := [], errors := [], text := "oops" })
      = { created := 0, failed := [({ venue_name := "A" } : Restaurant)].length,
          errors := ["HTTP " ++ toString 500 ++ ": " ++ pyTake200 "oops"] } :=
  ⟨createBatch_accounting.1 _ _ rfl,
    createBatch_accounting.2.1 _ _ rfl,
    createBatch_accounting.2.2.1 _ _ (by decide) (by decide)⟩

/-- **C10.** `push_restaurants` on an empty record list returns exactly
`{created: 0, failed: 0, errors: []}`, issuing no provider request and
performing no inter-batch sleep (`batch_size` must be positive: Python's
`range` raises on a zero step). -/
theorem push_restaurants_empty (provider : Nat → BatchOutcome) (bs : Nat)
    (h : 0 < bs) :
    pushRestaurants provider [] bs
      = { created := 0, failed := 0, errors := [], requests := 0,
          sleeps := 0 } := rfl

/-- Concrete instantiation of `push_restaurants_empty` at the default
batch size. -/
theorem push_restaurants_empty_witness :
    pushRestaurants (fun _ => .exc "down") [] 10
      = { created := 0, failed := 0, errors := [], requests := 0,
          sleeps := 0 } :=
  push_restaurants_empty (fun _ => .exc "down") 10 (by decide)

/-! ### CSV exporter: C9 -/

theorem cell_ne_none (v : PyVal) : cell v ≠ PyVal.none := by
  cases v <;> simp [cell]

/-- **C9.** `export_to_csv` emits one header row plus one row per record;
the row layout is the fixed 20-column order (name, website, phone, email,
street, city, region, postal code, country, owner, category, rating,
price tier, facebook, instagram, twitter, linkedin, tiktok, review-site
URL, hours); `hubspot_format` swaps in the alternate header names; a
`None` rating is rendered as `""` and no cell is ever `None`. -/
theorem export_to_csv_shape (rs : List Restaurant) (fmt : Bool) :
    (exportToCsv rs fmt).length = rs.length + 1
    ∧ (exportToCsv rs fmt).head? = some ((csvHeaders fmt).map PyVal.s)
    ∧ (exportToCsv rs fmt).tail = rs.map rowFor
    ∧ csvHeaders false = CSV_COLUMNS
    ∧ csvHeaders true
      = ["Company name", "Company domain name", "Phone number", "Email",
          "Street address", "City", "State/Region", "Postal code",
          "Country/Region", "Owner name", "Industry", "Rating", "Price level",
          "Facebook page", "Instagram", "Twitter handle", "LinkedIn page",
          "TikTok", "Yelp URL", "Hours of operation"]
    ∧ (∀ r : Restaurant, rowFor r
        = [.s r.venue_name, .s r.website, .s r.phone_number, .s r.email_address,
            .s r.venue_address, .s r.city, .s r.state, .s r.zip_code,
            .s r.country, .s r.venue_owner, .s r.cuisine_type,
            cell (ratingVal r.rating), .s r.price_level, .s r.facebook,
            .s r.instagram, .s r.twitter, .s r.linkedin, .s r.tiktok,
            .s r.yelp_url, .s r.hours_of_operation])
    ∧ cell (ratingVal Option.none) = .s ""
    ∧ (∀ (r : Restaurant) (c : PyVal), c ∈ rowFor r → c ≠ PyVal.none) := by
  refine ⟨by simp [exportToCsv], rfl, rfl, rfl, rfl, fun r => rfl, rfl, ?_⟩
  intro r c hc
  rcases List.mem_map.mp hc with ⟨col, _, hcol⟩
  exact hcol ▸ cell_ne_none _

/-- Concrete instantiation of `export_to_csv_shape`: a `None`-valued cell
in a record row is never the `None` token. -/
theorem export_to_csv_shape_witness :
    (PyVal.s "Cafe" : PyVal) ≠ PyVal.none :=
  (export_to_csv_shape [] true).2.2.2.2.2.2.2 { venue_name := "Cafe" }
    (.s "Cafe") (by decide)

/-! ### Google details enrichment: C3 -/

theorem applyComp_frame (r : Restaurant) (c : AddrComp) :
    (applyComp r c).venue_name = r.venue_name
    ∧ (applyComp r c).phone_number = r.phone_number
    ∧ (applyComp r c).website = r.website
    ∧ (applyComp r c).venue_address = r.venue_address
    ∧ (applyComp r c).email_address = r.email_address
    ∧ (applyComp r c).venue_owner = r.venue_owner
    ∧ (applyComp r c).rating = r.rating
    ∧ (applyComp r c).price_level = r.price_level
    ∧ (applyComp r c).hours_of_operation = r.hours_of_operation
    ∧ (applyComp r c).google_place_id = r.google_place_id
    ∧ (applyComp r c).source = r.source := by
  unfold applyComp
  split_ifs <;>
    exact ⟨rfl, rfl, rfl, rfl, rfl, rfl, rfl, rfl, rfl, rfl, rfl⟩

theorem parseAddr_frame (comps : List AddrComp) :
    ∀ r : Restaurant,
      (parseAddressComponents comps r).venue_name = r.venue_name
      ∧ (parseAddressComponents comps r).phone_number = r.phone_number
      ∧ (parseAddressComponents comps r).email_address = r.email_address
      ∧ (parseAddressComponents comps r).venue_owner = r.venue_owner := by
  induction comps with
  | nil => intro r; exact ⟨rfl, rfl, rfl, rfl⟩
  | cons c cs ih =>
    intro r
    have h1 := applyComp_frame r c
    have h2 := ih (applyComp r c)
    refine ⟨?_, ?_, ?_, ?_⟩
    · exact (h2.1).trans h1.1
    · exact (h2.2.1).trans h1.2.1
    · exact (h2.2.2.1).trans h1.2.2.2.2.1
    · exact (h2.2.2.2).trans h1.2.2.2.2.2.1

/-- **C3.** The gap-fill contract is the documented discipline for
enrichment (the other two enrichers guard every assignment with
`if not restaurant.field`), but `enrich_restaurant` violates it: at the
failing input — a record with `google_place_id = "pid"` and a non-empty
phone number `"111"`, and an `OK` details response carrying
`formatted_phone_number = "222"` — the code overwrites the non-empty
phone with `"222"` where the claim requires it unchanged. -/
theorem enrich_gap_fill_code_bug :
    (({ venue_name := "V", google_place_id := "pid", phone_number := "111" } :
        Restaurant).phone_number ≠ "")
    ∧ (enrichRestaurant
        { venue_name := "V", google_place_id := "pid", phone_number := "111" }
        (.ok { formatted_phone_number := some "222", website := Option.none,
               formatted_address := Option.none, price_level := Option.none,
               rating := Option.none, weekday_text := [],
               address_components := [] })).phone_number
      ≠ ({ venue_name := "V", google_place_id := "pid", phone_number := "111" } :
          Restaurant).phone_number :=
  ⟨by decide, by decide⟩

/-- Supporting characterization of what `enrich_restaurant` actually
does (documenting the extent of the C3 bug): for a record with a
non-empty `google_place_id` and an `OK` details response it fills phone,
website, formatted address, price tier (0→"Free", 1→"$", 2→"$$",
3→"$$$", 4→"$$$$", anything else→""), rating, weekday hours joined with
`" | "`, and the decomposed address components — by overwriting: a value
present in the response replaces the record's field even when it was
non-empty; absent values leave the field alone; name, email and owner
are untouched; a non-`OK` status or an empty `place_id` leaves the
record unchanged. -/
theorem enrich_details_overwrite (r : Restaurant) (result : PlaceDetails)
    (h : r.google_place_id ≠ "") :
    (enrichRestaurant r (.ok result)
      = parseAddressComponents result.address_components
          { r with
            phone_number := result.formatted_phone_number.getD r.phone_number,
            website := result.website.getD r.website,
            venue_address := result.formatted_address.getD r.venue_address,
            price_level :=
              match result.price_level with
              | Option.none => r.price_level
              | Option.some p => priceStr p,
            rating :=
              match result.rating with
              | Option.none => r.rating
              | Option.some q => some q,
            hours_of_operation :=
              if result.weekday_text.isEmpty then r.hours_of_operation
              else pyJoin " | " result.weekday_text })
    ∧ (priceStr 0 = "Free" ∧ priceStr 1 = "$" ∧ priceStr 2 = "$$"
        ∧ priceStr 3 = "$$$" ∧ priceStr 4 = "$$$$" ∧ priceStr 5 = "")
    ∧ (enrichRestaurant r (.ok result)).email_address = r.email_address
    ∧ (enrichRestaurant r (.ok result)).venue_owner = r.venue_owner
    ∧ (enrichRestaurant r (.ok result)).venue_name = r.venue_name
    ∧ (∀ s, enrichRestaurant r (.notOk s) = r)
    ∧ (∀ (rr : Restaurant) (resp : DetailsResp), rr.google_place_id = "" →
        enrichRestaurant rr resp = rr)
    ∧ (∀ (x : Restaurant) (c : AddrComp),
        ("locality" ∈ c.types → applyComp x c = { x with city := c.long_name })
        ∧ ("locality" ∉ c.types → "administrative_area_level_1" ∈ c.types →
            applyComp x c = { x with state := c.short_name })
        ∧ ("locality" ∉ c.types → "administrative_area_level_1" ∉ c.types →
            "postal_code" ∈ c.types →
            applyComp x c = { x with zip_code := c.long_name })
        ∧ ("locality" ∉ c.types → "administrative_area_level_1" ∉ c.types →
            "postal_code" ∉ c.types → "country" ∈ c.types →
            applyComp x c = { x with country := c.long_name })) := by
  have hmain : enrichRestaurant r (.ok result)
      = parseAddressComponents result.address_components
          { r with
            phone_number := result.formatted_phone_number.getD r.phone_number,
            website := result.website.getD r.website,
            venue_address := result.formatted_address.getD r.venue_address,
            price_level :=
              match result.price_level with
              | Option.none => r.price_level
              | Option.some p => priceStr p,
            rating :=
              match result.rating with
              | Option.none => r.rating
              | Option.some q => some q,
            hours_of_operation :=
              if result.weekday_text.isEmpty then r.hours_of_operation
              else pyJoin " | " result.weekday_text } := by
    unfold enrichRestaurant
    rw [if_neg h]
    rcases result with ⟨fp, w, fa, pl, ra, wt, ac⟩
    rcases pl with _ | p <;> rcases ra with _ | q <;> rcases wt with _ | ⟨x, xs⟩ <;> rfl
  refine ⟨hmain, ⟨rfl, rfl, rfl, rfl, rfl, rfl⟩, ?_, ?_, ?_, ?_, ?_, ?_⟩
  · rw [hmain]
    exact (parseAddr_frame result.address_components _).2.2.1
  · rw [hmain]
    exact (parseAddr_frame result.address_components _).2.2.2
  · rw [hmain]
    exact (parseAddr_frame result.address_components _).1
  · intro s
    by_cases hg : r.google_place_id = "" <;> simp [enrichRestaurant, hg]
  · intro rr resp hg
    simp [enrichRestaurant, hg]
  · intro x c
    refine ⟨?_, ?_, ?_, ?_⟩
    · intro h1; simp [applyComp, h1]
    · intro h1 h2; simp [applyComp, h1, h2]
    · intro h1 h2 h3; simp [applyComp, h1, h2, h3]
    · intro h1 h2 h3 h4; simp [applyComp, h1, h2, h3, h4]

/-- Concrete instantiation of `enrich_details_overwrite`: the price tier
is rewritten from the response's `price_level = 2` and a non-`OK` status
is a no-op. -/
theorem enrich_details_overwrite_witness :
    enrichRestaurant { venue_name := "V", google_place_id := "pid", price_level := "$" }
        (.ok { formatted_phone_number := Option.none, website := Option.none,
               formatted_address := Option.none, price_level := some 2,
               rating := Option.none, weekday_text := [],
               address_components := [] })
      = { venue_name := "V", google_place_id := "pid", price_level := "$$" }
    ∧ enrichRestaurant { venue_name := "W", google_place_id := "pid2" } (.notOk "NOT_FOUND")
      = { venue_name := "W", google_place_id := "pid2" } :=
  ⟨(enrich_details_overwrite
      { venue_name := "V", google_place_id := "pid", price_level := "$" }
      { formatted_phone_number := Option.none, website := Option.none,
        formatted_address := Option.none, price_level := some 2,
        rating := Option.none, weekday_text := [], address_components := [] }
      (by decide)).1,
    (enrich_details_overwrite
      { venue_name := "W", google_place_id := "pid2" }
      { formatted_phone_number := Option.none, website := Option.none,
        formatted_address := Option.none, price_level := Option.none,
        rating := Option.none, weekday_text := [], address_components := [] }
      (by decide)).2.2.2.2.2.1 "NOT_FOUND"⟩

/-! ### Adapter failure semantics: C4 -/

/-- **C4 counterexample.** The structured-API (Google Places) adapter does
not catch transport failures: a `requests` exception on the very first
page request propagates out of `_paginate_search` instead of yielding the
accumulated (empty) record list. -/
theorem google_search_raises_counterexample :
    gRaises (fun _ => .error "connection refused") 20 "connection refused" :=
  ⟨1, rfl⟩

/-- **C4 (amended).** The scraped-listing (Yelp) adapter treats a caught
transport failure on any page exactly like an empty page — it stops and
returns what it accumulated, never propagating; the web-search fetch
helper maps transport failures and non-200 statuses to "no data"; but the
Google Places pagination propagates a transport failure on its first
request to its caller. -/
theorem adapter_failure_isolation :
    (∀ (fetch : Nat → Except String (List Restaurant))
        (maxResults n start : Nat) (acc : List Restaurant),
        yelpGo fetch maxResults n start acc
          = yelpGo (errToEmpty fetch) maxResults n start acc)
    ∧ (∀ (fetch : Nat → Except String (List Restaurant)) (maxResults : Nat),
        yelpSearch fetch maxResults = yelpSearch (errToEmpty fetch) maxResults)
    ∧ (∀ msg, webFetchUrl (.error msg) = Option.none)
    ∧ (∀ (st : Nat) (text : String), st ≠ 200 →
        webFetchUrl (.ok (st, text)) = Option.none)
    ∧ (∀ (fetch : Nat → Except String GResponse) (maxResults : Nat)
        (msg : String), 0 < maxResults → fetch 0 = .error msg →
        gRaises fetch maxResults msg) := by
  have hyelp : ∀ (fetch : Nat → Except String (List Restaurant))
      (maxResults n start : Nat) (acc : List Restaurant),
      yelpGo fetch maxResults n start acc
        = yelpGo (errToEmpty fetch) maxResults n start acc := by
    intro fetch maxResults n
    induction n with
    | zero => intro start acc; rfl
    | succ m ih =>
      intro start acc
      by_cases hm : maxResults ≤ acc.length
      · simp [yelpGo, hm]
      · rcases hf : fetch start with msg | results
        · simp [yelpGo, hm, errToEmpty, hf]
        · by_cases he : results.isEmpty
          · simp [yelpGo, hm, errToEmpty, hf, he]
          · simp only [yelpGo, hm, if_false, errToEmpty, hf, he]
            simp [he, ih]
  refine ⟨hyelp, ?_, ?_, ?_, ?_⟩
  · intro fetch maxResults
    exact hyelp fetch maxResults (maxResults + 1) 0 []
  · intro msg; rfl
  · intro st text hst
    simp [webFetchUrl, hst]
  · intro fetch maxResults msg hpos hf
    refine ⟨1, ?_⟩
    unfold gPaginate gGo
    rw [if_neg (by simpa using Nat.not_le.mpr hpos), hf]

/-- Concrete instantiation of `adapter_failure_isolation`: a Yelp run
whose second page request fails returns the first page's records; a 404
fetch yields no data; a failing first Google request propagates. -/
theorem adapter_failure_isolation_witness :
    yelpSearch (fun k => if k = 0 then .ok [{ venue_name := "Y1" }] else .error "boom") 30
      = yelpSearch (errToEmpty
          (fun k => if k = 0 then .ok [{ venue_name := "Y1" }] else .error "boom")) 30
    ∧ webFetchUrl (.ok (404, "nope")) = Option.none
    ∧ gRaises (fun _ => .error "timeout") 5 "timeout" :=
  ⟨adapter_failure_isolation.2.1 _ 30,
    adapter_failure_isolation.2.2.2.1 404 "nope" (by decide),
    adapter_failure_isolation.2.2.2.2 _ 5 "timeout" (by decide) rfl⟩

/-! ### Pagination termination: C5 -/

theorem gGo_length_le (fetch : Nat → Except String GResponse)
    (maxResults : Nat) :
    ∀ (n i : Nat) (acc out : List Restaurant), acc.length ≤ maxResults →
      gGo fetch maxResults n i acc = some (.ok out) →
      out.length ≤ maxResults := by
  intro n
  induction n with
  | zero => intro i acc out _ hout; simp [gGo] at hout
  | succ m ih =>
    intro i acc out hacc hout
    by_cases hm : maxResults ≤ acc.length
    · rw [show gGo fetch maxResults (m + 1) i acc = some (.ok acc) by
        simp [gGo, hm]] at hout
      have hao : acc = out := by simpa using hout
      exact hao ▸ hacc
    · rcases hf : fetch i with e | resp
      · simp [gGo, hm, hf] at hout
      · by_cases hs : okStatus resp.status
        · have hlen : (acc ++ (resp.results.map parseBasic).take
              (maxResults - acc.length)).length ≤ maxResults := by
            simp only [List.length_append, List.length_take, List.length_map]
            omega
          rcases ht : resp.next_page_token with _ | tok
          · rw [show gGo fetch maxResults (m + 1) i acc
                = some (.ok (acc ++ (resp.results.map parseBasic).take
                    (maxResults - acc.length))) by
              simp [gGo, hm, hf, hs, ht]] at hout
            have hoe : acc ++ (resp.results.map parseBasic).take
                (maxResults - acc.length) = out := by simpa using hout
            exact hoe ▸ hlen
          · rw [show gGo fetch maxResults (m + 1) i acc
                = gGo fetch maxResults m (i + 1)
                    (acc ++ (resp.results.map parseBasic).take
                      (maxResults - acc.length)) by
              simp [gGo, hm, hf, hs, ht]] at hout
            exact ih (i + 1) _ out hlen hout
        · rw [show gGo fetch maxResults (m + 1) i acc = some (.ok acc) by
            simp [gGo, hm, hf, hs]] at hout
          have hao : acc = out := by simpa using hout
          exact hao ▸ hacc

theorem gGo_isSome (fetch : Nat → Except String GResponse) (maxResults : Nat)
    (hne : ∀ i r, fetch i = .ok r → okStatus r.status = true →
        r.next_page_token.isSome → r.results ≠ []) :
    ∀ (n i : Nat) (acc : List Restaurant), acc.length ≤ maxResults →
      maxResults < acc.length + n → (gGo fetch maxResults n i acc).isSome := by
  intro n
  induction n with
  | zero => intro i acc hacc hlt; omega
  | succ m ih =>
    intro i acc hacc hlt
    by_cases hm : maxResults ≤ acc.length
    · simp [gGo, hm]
    · rcases hf : fetch i with e | resp
      · simp [gGo, hm, hf]
      · by_cases hs : okStatus resp.status
        · rcases ht : resp.next_page_token with _ | tok
          · simp [gGo, hm, hf, hs, ht]
          · have hres : resp.results ≠ [] :=
              hne i resp hf hs (by simp [ht])
            have hres1 : 1 ≤ resp.results.length := by
              cases hl : resp.results with
              | nil => exact absurd hl hres
              | cons a l => simp
            have hlo : acc.length + 1
                ≤ (acc ++ (resp.results.map parseBasic).take
                    (maxResults - acc.length)).length := by
              simp only [List.length_append, List.length_take, List.length_map]
              omega
            have hhi : (acc ++ (resp.results.map parseBasic).take
                (maxResults - acc.length)).length ≤ maxResults := by
              simp only [List.length_append, List.length_take, List.length_map]
              omega
            have := ih (i + 1)
              (acc ++ (resp.results.map parseBasic).take (maxResults - acc.length))
              hhi (by omega)
            rw [show gGo fetch maxResults (m + 1) i acc
                = gGo fetch maxResults m (i + 1)
                    (acc ++ (resp.results.map parseBasic).take
                      (maxResults - acc.length)) by
              simp [gGo, hm, hf, hs, ht]]
            exact this
        · simp [gGo, hm, hf, hs]

/-- **C5 counterexample.** A provider that answers every request with
status `OK`, an empty `results` array and a `next_page_token` makes
`_paginate_search` loop forever: the claim's "terminates ... even when the
provider returns a next_page_token on every page" fails on the code. -/
theorem paginate_nontermination_counterexample :
    ¬ gTerminates (fun _ => .ok emptyTokenPage) 5 := by
  rintro ⟨n, hn⟩
  have hall : ∀ (m i : Nat),
      gGo (fun _ => .ok emptyTokenPage) 5 m i [] = Option.none := by
    intro m
    induction m with
    | zero => intro i; rfl
    | succ k ih =>
      intro i
      rw [show gGo (fun _ => .ok emptyTokenPage) 5 (k + 1) i []
          = gGo (fun _ => .ok emptyTokenPage) 5 k (i + 1) [] by
        simp [gGo, okStatus, emptyTokenPage]]
      exact ih (i + 1)
  rw [gPaginate, hall n 0] at hn
  simp at hn

/-- **C5 (amended).** Whenever every fetched page with a good status and a
continuation token carries at least one result, `_paginate_search`
terminates and returns at most `max_results` records even if the token
never stops coming; it also stops without raising when the token is
absent or the status is neither "OK" nor "ZERO_RESULTS" (with an
always-OK-empty-token-bearing provider, however, the loop never ends —
see the counterexample). -/
theorem paginate_termination_cap (fetch : Nat → Except String GResponse)
    (maxResults : Nat)
    (hne : ∀ i r, fetch i = .ok r → okStatus r.status = true →
        r.next_page_token.isSome → r.results ≠ []) :
    gTerminates fetch maxResults
    ∧ (∀ n out, gPaginate fetch maxResults n = some (.ok out) →
        out.length ≤ maxResults)
    ∧ (∀ r0, fetch 0 = .ok r0 → okStatus r0.status = false →
        gPaginate fetch maxResults 1 = some (.ok []))
    ∧ (∀ r0, fetch 0 = .ok r0 → okStatus r0.status = true →
        r0.next_page_token = Option.none →
        gPaginate fetch maxResults 1
          = some (.ok ((r0.results.map parseBasic).take maxResults))) := by
  refine ⟨?_, ?_, ?_, ?_⟩
  · exact ⟨maxResults + 1,
      gGo_isSome fetch maxResults hne (maxResults + 1) 0 [] (by simp) (by simp)⟩
  · intro n out hout
    exact gGo_length_le fetch maxResults n 0 [] out (by simp) hout
  · intro r0 hf hs
    by_cases hm : maxResults ≤ 0
    · have : maxResults = 0 := by omega
      subst this
      rfl
    · unfold gPaginate gGo
      rw [if_neg (by simpa using hm), hf]
      simp [hs]
  · intro r0 hf hs ht
    by_cases hm : maxResults ≤ 0
    · have : maxResults = 0 := by omega
      subst this
      simp [gPaginate, gGo]
    · unfold gPaginate gGo
      rw [if_neg (by simpa using hm), hf]
      simp [hs, ht]

/-- Concrete instantiation of `paginate_termination_cap`: the spec's mock
provider that returns one record and a continuation token forever still
terminates at `max_results = 3`. -/
theorem paginate_termination_cap_witness :
    gTerminates (fun _ => .ok oneResultTokenPage) 3 :=
  (paginate_termination_cap (fun _ => .ok oneResultTokenPage) 3
    (by
      intro i r hr hs ht
      injection hr with h
      subst h
      simp [oneResultTokenPage])).1

/-! ### Email extraction: C6 -/

/-- **C6 counterexample.** The claim's domain rule ("the site's own
domain with a leading `www.` stripped") diverges from the code, which
removes *every* occurrence of `"www."` from the host: for the site
`https://foo.www.bar.com` the code prefers `b@foo.bar.com` while the
claim's rule picks `a@foo.www.bar.com`. -/
theorem extract_email_domain_counterexample :
    extractEmail [] "a@foo.www.bar.com b@foo.bar.com" "" "https://foo.www.bar.com"
      = "b@foo.bar.com"
    ∧ extractEmailSpec [] "a@foo.www.bar.com b@foo.bar.com" "" "https://foo.www.bar.com"
      = "a@foo.www.bar.com"
    ∧ ("b@foo.bar.com" : String) ≠ "a@foo.www.bar.com" :=
  ⟨by decide, by decide, by decide⟩

/-- **C6 (amended).** Email extraction precedence on an empty email
field: a valid `mailto:` target (in anchor order) wins over any
plain-text candidate; failing that, email-shaped substrings of the
concatenated text+markup are collected, matches ending in an image
extension are dropped, a match containing the site's own domain — the
host with *every* occurrence of `"www."` removed — is preferred, else
the first remaining match is taken; no match at all yields `""` without
error. -/
theorem extract_email_precedence :
    (∀ (anchors : List String) (text html baseUrl e : String),
        firstMailto anchors = some e →
        extractEmail anchors text html baseUrl = e)
    ∧ (∀ (anchors : List String) (text html baseUrl : String),
        firstMailto anchors = Option.none →
        filteredEmails text html = [] →
        extractEmail anchors text html baseUrl = "")
    ∧ (∀ (anchors : List String) (text html baseUrl e : String)
        (es : List String),
        firstMailto anchors = Option.none →
        domainPreferred (siteDomain baseUrl) (filteredEmails text html)
          = e :: es →
        extractEmail anchors text html baseUrl = e)
    ∧ (∀ (anchors : List String) (text html baseUrl e : String)
        (es : List String),
        firstMailto anchors = Option.none →
        domainPreferred (siteDomain baseUrl) (filteredEmails text html) = [] →
        filteredEmails text html = e :: es →
        extractEmail anchors text html baseUrl = e)
    ∧ extractEmail ["mailto:jane@site.com"] "info@other.com" "" "https://site.com"
      = "jane@site.com"
    ∧ extractEmail [] "info@other.com hello@site.com" "" "https://www.site.com"
      = "hello@site.com"
    ∧ filteredEmails "see logo@2x.png and real@site.com" ""
      = ["real@site.com"] := by
  refine ⟨?_, ?_, ?_, ?_, by decide, by decide, by decide⟩
  · intro anchors text html baseUrl e hm
    unfold extractEmail
    rw [hm]
  · intro anchors text html baseUrl hm hf
    unfold extractEmail
    rw [hm, hf]
    simp [domainPreferred]
  · intro anchors text html baseUrl e es hm hd
    unfold extractEmail
    rw [hm, hd]
  · intro anchors text html baseUrl e es hm hd hf
    unfold extractEmail
    rw [hm, hd, hf]

/-- Concrete instantiation of `extract_email_precedence`: the `mailto:`
branch and the empty-result branch. -/
theorem extract_email_precedence_witness :
    extractEmail ["mailto:owner@cafe.com"] "x@y.com" "" "https://cafe.com"
      = "owner@cafe.com"
    ∧ extractEmail [] "" "" "https://cafe.com" = "" :=
  ⟨extract_email_precedence.1 ["mailto:owner@cafe.com"] "x@y.com" ""
      "https://cafe.com" "owner@cafe.com" (by decide),
    extract_email_precedence.2.1 [] "" "" "https://cafe.com" rfl (by decide)⟩

end RestaurantScraper
